import Mathlib

/-
Verification development for the KVM write-permission probe
(testcases/kernel/kvm/kvm_pagefault01.c, CVE 2021-38198 regression test).

The guest payload is embedded shallowly: page-table memory is a function
from (table base address, entry index) to entries, the payload main is a
function producing an event trace and an outcome, and the hypervisor under
test is abstracted by whether it enforces the writable bit on a present
mapping (fixed) or silently lets the write through (defective).
-/

/-- Page-table entry in PAE/long-mode format, carrying the fields the payload
reads and writes: present, writable, user-accessible flags and a 40-bit
physical frame number (struct page_table_entry_pae). -/
structure PTE where
  present : Bool
  writable : Bool
  user_access : Bool
  address : Nat
deriving DecidableEq

/-- The all-zero entry: not present, no permissions, frame 0. -/
def zeroPTE : PTE := { present := false, writable := false, user_access := false, address := 0 }

/-- Guest page-table memory: table physical base address and entry index to entry. -/
abbrev Mem := Nat → Nat → PTE

/-- Overwrite one whole entry (pte[i] = e). -/
def setE (m : Mem) (b i : Nat) (e : PTE) : Mem :=
  fun b2 i2 => if b2 = b ∧ i2 = i then e else m b2 i2

/-- Update one entry through a field modification (pte[i].field = v). -/
def updE (m : Mem) (b i : Nat) (f : PTE → PTE) : Mem :=
  setE m b i (f (m b i))

/-- Zero a physically contiguous block of pages (memset(p, 0, size)):
every table base inside the block reads as all-zero entries afterwards. -/
def zeroRange (m : Mem) (base size : Nat) : Mem :=
  fun b2 i2 => if base ≤ b2 ∧ b2 < base + size then zeroPTE else m b2 i2

/-- PAGESIZE from the source (0x1000). -/
def PAGESIZE : Nat := 4096

/-- Modelled from the spec: the long-mode-active bit of the EFER MSR
(EFER_LMA, bit 10), whose absence means 64-bit paging is not enabled. -/
def EFER_LMA : Nat := 1 <<< 10

/-- Modelled from the spec: interrupt vector number of the page-fault
exception the handler is registered for (INTR_PAGE_FAULT). -/
def INTR_PAGE_FAULT : Nat := 14

/-- cacher1 = (int *)0x100000000ULL -/
def cacher1VA : Nat := 0x100000000

/-- writable = (int *)0x100200000ULL -/
def writableVA : Nat := 0x100200000

/-- cacher2 = (int *)0x140000000ULL -/
def cacher2VA : Nat := 0x140000000

/-- readonly = (int *)0x140200000ULL -/
def readonlyVA : Nat := 0x140200000

/-- Modelled from the spec: 9-bit slice of a virtual address indexing
paging level lvl (level 3 = top, level 0 = leaf page table). -/
def vaIdx (va lvl : Nat) : Nat := (va >>> (12 + 9 * lvl)) &&& 511

/-- Modelled from the spec: kvm_get_page_address_pae, the external helper
that extracts the physical page address stored in a present entry
(entry.address shifted back to a byte address; 0 if not present). -/
def kvm_get_page_address_pae (e : PTE) : Nat :=
  if e.present then e.address <<< 12 else 0

/-- The branch-point search loop of main: while the second entry of the
current table is not present, descend through the first entry. The C loop
is unbounded; fuel models the number of iterations actually available
(any paging hierarchy has depth at most 5). -/
def findBranch (m : Mem) : Nat → Nat → Option Nat
  | _, 0 => none
  | pte, fuel + 1 =>
    if (m pte 1).present then some pte
    else findBranch m (kvm_get_page_address_pae (m pte 0)) fuel

/-- Modelled from the spec: the four entries a hardware 4-level long-mode
walk reads for a virtual address, from the top-level table down to the leaf. -/
def entryChain (m : Mem) (root va : Nat) : List PTE :=
  let e3 := m root (vaIdx va 3)
  let e2 := m (e3.address <<< 12) (vaIdx va 2)
  let e1 := m (e2.address <<< 12) (vaIdx va 1)
  let e0 := m (e1.address <<< 12) (vaIdx va 0)
  [e3, e2, e1, e0]

/-- Modelled from the spec: 4-level long-mode address translation. A virtual
address resolves iff every level is present; the effective writable
permission is the conjunction of the writable bits of all four levels. -/
def resolveVA (m : Mem) (root va : Nat) : Option (Nat × Bool) :=
  match entryChain m root va with
  | [e3, e2, e1, e0] =>
    if e3.present && e2.present && e1.present && e0.present then
      some ((e0.address <<< 12) + (va &&& 4095),
        e3.writable && e2.writable && e1.writable && e0.writable)
    else none
  | _ => none

/-- Test result statuses reported to the harness (TPASS and TFAIL and TBROK). -/
inductive Status
  | pass
  | fail
  | broken
deriving DecidableEq

/-- Observable events of a payload run: the heap allocation, the memset of
the allocated block, individual page-table entry stores, the guest memory
accesses of the probing phase, delivered page faults (with the reported
faulting address), handler registration, result reports and guest exit. -/
inductive Event
  | alloc (size align : Nat)
  | zeroBlock (base size : Nat)
  | ptWrite (base idx : Nat)
  | memRead (va : Nat)
  | memWrite (va : Nat)
  | pageFault (cr2 : Nat)
  | setHandler (vector userdata : Nat)
  | report (s : Status) (msg : String)
  | exitGuest
deriving DecidableEq

/-- How a payload run ends: guest exit from the handler, falling off the end
of main, a tst_brk abort, escalation to default fault handling, or the
branch search never terminating. -/
inductive Outcome
  | exitedGuest
  | finishedMain
  | brokeSetup
  | defaultFault (cr2 : Nat)
  | searchDiverged
deriving DecidableEq

/-- What an interrupt-callback invocation does: either it fully resolves the
event, emitting reports and terminating the guest, or it declines
(returns 0) so default fault handling takes over. -/
inductive HandlerAction
  | exitWith (evs : List Event)
  | unhandled
deriving DecidableEq

/-- handle_page_fault from the source: read cr2; if it equals the userdata
pointer registered with the callback (the readonly pointer), report TPASS
and exit the guest; otherwise return 0 (unhandled). The errcode argument
is received but never examined. -/
def handle_page_fault (userdata cr2 errcode : Nat) : HandlerAction :=
  if cr2 = userdata then
    HandlerAction.exitWith
      [Event.report Status.pass "KVM enforces memory write permissions", Event.exitGuest]
  else HandlerAction.unhandled

/-- Boolean check whether a handler action reports TPASS. -/
def handlerReportsPass : HandlerAction → Bool
  | HandlerAction.exitWith evs =>
    evs.any fun e =>
      match e with
      | Event.report Status.pass _ => true
      | _ => false
  | HandlerAction.unhandled => false

/-- Modelled from the spec: bit 1 of the x86 page-fault error code is set
exactly when the fault was caused by a write; a fault of the expected kind
for the probing write carries this bit. -/
def isWriteFaultErrcode (errcode : Nat) : Bool := errcode &&& 2 != 0

/-- One guest memory access of the probing phase. -/
inductive Access
  | read (va : Nat)
  | write (va : Nat)
deriving DecidableEq

/-- Address of an access. -/
def Access.va : Access → Nat
  | Access.read v => v
  | Access.write v => v

/-- Trace event of an access. -/
def accessEvent : Access → Event
  | Access.read va => Event.memRead va
  | Access.write va => Event.memWrite va

/-- Modelled from the spec: the error code the hardware delivers with a
fault on the given kind of access (bit 1 = write). The handler under test
never reads this value. -/
def errcodeOf : Access → Nat
  | Access.read _ => 1
  | Access.write _ => 3

/-- The access sequence of the prober, in source order: read cacher1,
write through the writable pointer, read cacher2, write through readonly. -/
def proberAccesses : List Access :=
  [Access.read cacher1VA, Access.write writableVA,
   Access.read cacher2VA, Access.write readonlyVA]

/-- Modelled from the spec: the implementation under test. A fixed
implementation enforces write permissions; a defective one lets a write
through a nominally read-only mapping succeed without faulting. -/
inductive Impl
  | fixed
  | defective
deriving DecidableEq

/-- Modelled from the spec: whether a write access faults. A write to an
unmapped address always faults; a write to a present mapping faults on a
fixed implementation iff the effective writable permission is absent, and
never faults on a defective implementation. -/
def writeFaults (impl : Impl) (m : Mem) (root va : Nat) : Bool :=
  match resolveVA m root va with
  | none => true
  | some (_, w) =>
    match impl with
    | Impl.fixed => !w
    | Impl.defective => false

/-- Whether an access of the probing phase raises a page fault:
reads fault only on unmapped addresses, writes per writeFaults. -/
def accessFaults (impl : Impl) (m : Mem) (root : Nat) : Access → Bool
  | Access.read va => (resolveVA m root va).isNone
  | Access.write va => writeFaults impl m root va

/-- The probing phase of main: perform the accesses in order. A faulting
access delivers a page fault to the registered handler; if the handler
resolves it the guest exits, otherwise default fault handling takes over.
If no access faults, control reaches the final statement of main, which
reports TFAIL ("This line should be unreachable"). -/
def runAccesses (impl : Impl) (m : Mem) (root userdata : Nat) :
    List Access → List Event × Outcome
  | [] =>
    ([Event.report Status.fail "Write to read-only address did not page fault"],
     Outcome.finishedMain)
  | a :: rest =>
    if accessFaults impl m root a then
      match handle_page_fault userdata a.va (errcodeOf a) with
      | HandlerAction.exitWith hevs =>
        ([accessEvent a, Event.pageFault a.va] ++ hevs, Outcome.exitedGuest)
      | HandlerAction.unhandled =>
        ([accessEvent a, Event.pageFault a.va], Outcome.defaultFault a.va)
    else
      match runAccesses impl m root userdata rest with
      | (evs, out) => (accessEvent a :: evs, out)

/-- The page-table construction of main, applied to the branch table B and
the freshly allocated block at tmp, in source statement order: memset the
five pages to zero, install pte[4] (field by field), copy it to pte[5] and
clear its writable bit, then fill the three sub-tables. -/
def constructMem (m0 : Mem) (B tmp : Nat) : Mem :=
  let m := zeroRange m0 tmp (5 * PAGESIZE)
  let m := updE m B 4 fun e => { e with address := (tmp >>> 12) % 2 ^ 40 }
  let m := updE m B 4 fun e => { e with user_access := true }
  let m := updE m B 4 fun e => { e with writable := true }
  let m := updE m B 4 fun e => { e with present := true }
  let m := setE m B 5 (m B 4)
  let m := updE m B 5 fun e => { e with writable := false }
  let m := updE m tmp 0 fun e => { e with address := ((tmp + PAGESIZE) >>> 12) % 2 ^ 40 }
  let m := updE m tmp 0 fun e => { e with user_access := true }
  let m := updE m tmp 0 fun e => { e with writable := false }
  let m := updE m tmp 0 fun e => { e with present := true }
  let m := updE m tmp 1 fun e => { e with address := ((tmp + 2 * PAGESIZE) >>> 12) % 2 ^ 40 }
  let m := updE m tmp 1 fun e => { e with user_access := true }
  let m := updE m tmp 1 fun e => { e with writable := true }
  let m := updE m tmp 1 fun e => { e with present := true }
  let m := updE m (tmp + PAGESIZE) 0 fun e => { e with address := ((tmp + 3 * PAGESIZE) >>> 12) % 2 ^ 40 }
  let m := updE m (tmp + PAGESIZE) 0 fun e => { e with user_access := true }
  let m := updE m (tmp + PAGESIZE) 0 fun e => { e with writable := true }
  let m := updE m (tmp + PAGESIZE) 0 fun e => { e with present := true }
  let m := updE m (tmp + 2 * PAGESIZE) 0 fun e => { e with address := ((tmp + 4 * PAGESIZE) >>> 12) % 2 ^ 40 }
  let m := updE m (tmp + 2 * PAGESIZE) 0 fun e => { e with user_access := true }
  let m := updE m (tmp + 2 * PAGESIZE) 0 fun e => { e with writable := true }
  let m := updE m (tmp + 2 * PAGESIZE) 0 fun e => { e with present := true }
  m

/-- The page-table mutation events of the construction, one per source
statement, in the same order as constructMem applies them. -/
def constructEvents (B tmp : Nat) : List Event :=
  [Event.zeroBlock tmp (5 * PAGESIZE),
   Event.ptWrite B 4, Event.ptWrite B 4, Event.ptWrite B 4, Event.ptWrite B 4,
   Event.ptWrite B 5, Event.ptWrite B 5,
   Event.ptWrite tmp 0, Event.ptWrite tmp 0, Event.ptWrite tmp 0, Event.ptWrite tmp 0,
   Event.ptWrite tmp 1, Event.ptWrite tmp 1, Event.ptWrite tmp 1, Event.ptWrite tmp 1,
   Event.ptWrite (tmp + PAGESIZE) 0, Event.ptWrite (tmp + PAGESIZE) 0,
   Event.ptWrite (tmp + PAGESIZE) 0, Event.ptWrite (tmp + PAGESIZE) 0,
   Event.ptWrite (tmp + 2 * PAGESIZE) 0, Event.ptWrite (tmp + 2 * PAGESIZE) 0,
   Event.ptWrite (tmp + 2 * PAGESIZE) 0, Event.ptWrite (tmp + 2 * PAGESIZE) 0]

/-- All events of the setup phase of main: the aligned heap allocation,
the construction mutations, and the handler registration with the readonly
pointer as userdata. -/
def setupTrace (B tmp : Nat) : List Event :=
  Event.alloc (5 * PAGESIZE) PAGESIZE ::
    constructEvents B tmp ++ [Event.setHandler INTR_PAGE_FAULT readonlyVA]

/-- The ambient state main starts from: the EFER value kvm_rdmsr returns,
the bootstrap page-table memory, its root (kvm_pagetable), and the
page-aligned address tst_heap_alloc_aligned returns. -/
structure Env where
  efer : Nat
  mem : Mem
  root : Nat
  allocBase : Nat

/-- The guest payload main: check EFER.LMA (tst_brk on failure), find the
branch table, allocate and build the aliased mappings, register the
page-fault handler, then run the probing access sequence. -/
def runMain (impl : Impl) (env : Env) : List Event × Outcome :=
  if env.efer &&& EFER_LMA = 0 then
    ([Event.report Status.broken "Bootstrap did not enable 64bit paging"],
     Outcome.brokeSetup)
  else
    match findBranch env.mem env.root 64 with
    | none => ([], Outcome.searchDiverged)
    | some B =>
      match runAccesses impl (constructMem env.mem B env.allocBase) env.root
          readonlyVA proberAccesses with
      | (evs, out) => (setupTrace B env.allocBase ++ evs, out)

/-- Modelled from the spec and the bootstrap layout documented in the source
comment: the top-level table at root has only its first entry present,
pointing at a second-level table at pdpt whose entries 0 and 1 (the two
identity-mapped 1 GiB regions) and 3 (partially mapped region) are present
while entries 2, 4, 5 and beyond are free. The contents below the
identity-mapped entries are never consulted by the payload and are left
abstract (frame 0). -/
def standardMem (root pdpt : Nat) : Mem := fun b i =>
  if b = root ∧ i = 0 then
    { present := true, writable := true, user_access := false, address := pdpt >>> 12 }
  else if b = pdpt ∧ (i = 0 ∨ i = 1 ∨ i = 3) then
    { present := true, writable := true, user_access := false, address := 0 }
  else zeroPTE

/-- Side conditions making the bootstrap layout and the allocation
well-formed: page-aligned table addresses, distinct tables, the freshly
allocated 5-page block disjoint from the existing tables, and physical
addresses small enough for the 40-bit frame field (below 2^52). -/
abbrev memParams (root pdpt tmp : Nat) : Prop :=
  root % 4096 = 0 ∧ pdpt % 4096 = 0 ∧ tmp % 4096 = 0 ∧
  root ≠ pdpt ∧
  ¬(tmp ≤ root ∧ root < tmp + 20480) ∧
  ¬(tmp ≤ pdpt ∧ pdpt < tmp + 20480) ∧
  tmp + 20480 < 4503599627370496

/-- A standard run additionally has long mode active in EFER. -/
abbrev goodParams (efer root pdpt tmp : Nat) : Prop :=
  efer &&& EFER_LMA ≠ 0 ∧ memParams root pdpt tmp

/-- The environment of a standard run: EFER as read, the documented
bootstrap layout, and the allocator returning the block at tmp. -/
def standardEnv (efer root pdpt tmp : Nat) : Env :=
  { efer := efer, mem := standardMem root pdpt, root := root, allocBase := tmp }

/-- Host-side actions of the test setup. -/
inductive HostEvent
  | moduleReload (modName : String) (params : List String)
  | resInfo (msg : String)
deriving DecidableEq

/-- Values read from the three module parameter files, as returned by
tst_read_bool_sys_param (negative when the parameter does not exist). -/
structure HostParams where
  npt : Int
  ept : Int
  tdp_mmu : Int

/-- disable_tdp from the source: reload kvm_amd with npt=0 if the npt
parameter reads as enabled, reload kvm_intel with ept=0 if the ept
parameter reads as enabled, and emit only an informational warning if
tdp_mmu reads as enabled. -/
def disable_tdp (ps : HostParams) : List HostEvent :=
  (if ps.npt > 0 then [HostEvent.moduleReload "kvm_amd" ["npt=0"]] else []) ++
  (if ps.ept > 0 then [HostEvent.moduleReload "kvm_intel" ["ept=0"]] else []) ++
  (if ps.tdp_mmu > 0 then
    [HostEvent.resInfo "WARNING: tdp_mmu is enabled, beware of false negatives"]
   else [])

/-- Event classifiers used to state trace properties. -/
def isAccessEvent : Event → Bool
  | Event.memRead _ => true
  | Event.memWrite _ => true
  | _ => false

/-- An event mutating page-table state (an entry store or the memset). -/
def isPTMutation : Event → Bool
  | Event.ptWrite _ _ => true
  | Event.zeroBlock _ _ => true
  | _ => false

/-- An individual page-table entry store. -/
def isPTWriteEvent : Event → Bool
  | Event.ptWrite _ _ => true
  | _ => false

/-- A heap allocation request. -/
def isAllocEvent : Event → Bool
  | Event.alloc _ _ => true
  | _ => false

/-- A delivered page fault. -/
def isPageFaultEvent : Event → Bool
  | Event.pageFault _ => true
  | _ => false

/-
Helper lemmas: pointwise behaviour of the memory combinators, arithmetic
round-trips for the frame-number field, and the concrete index slices of
the four probe virtual addresses.
-/

theorem setE_lookup_ne (m : Mem) (b i : Nat) (e : PTE) (b2 i2 : Nat)
    (h : ¬(b2 = b ∧ i2 = i)) : setE m b i e b2 i2 = m b2 i2 := by
  simp [setE, h]

theorem setE_lookup_eq (m : Mem) (b i : Nat) (e : PTE) : setE m b i e b i = e := by
  simp [setE]

theorem updE_lookup_ne (m : Mem) (b i : Nat) (f : PTE → PTE) (b2 i2 : Nat)
    (h : ¬(b2 = b ∧ i2 = i)) : updE m b i f b2 i2 = m b2 i2 := by
  simp [updE, setE, h]

theorem updE_lookup_eq (m : Mem) (b i : Nat) (f : PTE → PTE) :
    updE m b i f b i = f (m b i) := by
  simp [updE, setE]

theorem zeroRange_lookup_in (m : Mem) (base size b2 i2 : Nat)
    (h : base ≤ b2 ∧ b2 < base + size) : zeroRange m base size b2 i2 = zeroPTE := by
  simp [zeroRange, h]

theorem zeroRange_lookup_out (m : Mem) (base size b2 i2 : Nat)
    (h : ¬(base ≤ b2 ∧ b2 < base + size)) : zeroRange m base size b2 i2 = m b2 i2 := by
  simp [zeroRange, h]

theorem page_align_rt (x : Nat) (h1 : x % 4096 = 0) : (x >>> 12) <<< 12 = x := by
  rw [Nat.shiftRight_eq_div_pow, Nat.shiftLeft_eq]
  norm_num
  omega

theorem page_roundtrip (x : Nat) (h1 : x % 4096 = 0) (h2 : x < 4503599627370496) :
    ((x >>> 12) % 1099511627776) <<< 12 = x := by
  rw [Nat.shiftRight_eq_div_pow, Nat.shiftLeft_eq]
  norm_num
  omega

theorem idx_c1_3 : vaIdx cacher1VA 3 = 0 := by decide
theorem idx_c1_2 : vaIdx cacher1VA 2 = 4 := by decide
theorem idx_c1_1 : vaIdx cacher1VA 1 = 0 := by decide
theorem idx_c1_0 : vaIdx cacher1VA 0 = 0 := by decide
theorem off_c1 : cacher1VA &&& 4095 = 0 := by decide

theorem idx_w_3 : vaIdx writableVA 3 = 0 := by decide
theorem idx_w_2 : vaIdx writableVA 2 = 4 := by decide
theorem idx_w_1 : vaIdx writableVA 1 = 1 := by decide
theorem idx_w_0 : vaIdx writableVA 0 = 0 := by decide
theorem off_w : writableVA &&& 4095 = 0 := by decide

theorem idx_c2_3 : vaIdx cacher2VA 3 = 0 := by decide
theorem idx_c2_2 : vaIdx cacher2VA 2 = 5 := by decide
theorem idx_c2_1 : vaIdx cacher2VA 1 = 0 := by decide
theorem idx_c2_0 : vaIdx cacher2VA 0 = 0 := by decide
theorem off_c2 : cacher2VA &&& 4095 = 0 := by decide

theorem idx_r_3 : vaIdx readonlyVA 3 = 0 := by decide
theorem idx_r_2 : vaIdx readonlyVA 2 = 5 := by decide
theorem idx_r_1 : vaIdx readonlyVA 1 = 1 := by decide
theorem idx_r_0 : vaIdx readonlyVA 0 = 0 := by decide
theorem off_r : readonlyVA &&& 4095 = 0 := by decide

/-
Entry-level views of the constructed page tables. Each lemma resolves one
of the seven entries the probing walks consult, under the disjointness
side conditions of memParams.
-/

theorem cmem_root0 (root pdpt tmp : Nat) (h : memParams root pdpt tmp) :
    constructMem (standardMem root pdpt) pdpt tmp root 0
      = { present := true, writable := true, user_access := false, address := pdpt >>> 12 } := by
  obtain ⟨a1, a2, a3, a4, a5, a6, a7⟩ := h
  have f1 : root ≠ tmp := by omega
  have f2 : root ≠ tmp + 4096 := by omega
  have f3 : root ≠ tmp + 8192 := by omega
  simp [constructMem, PAGESIZE, updE_lookup_ne, setE_lookup_ne, zeroRange_lookup_out,
    standardMem, f1, f2, f3, a5]

theorem cmem_pdpt4 (root pdpt tmp : Nat) (h : memParams root pdpt tmp) :
    constructMem (standardMem root pdpt) pdpt tmp pdpt 4
      = { present := true, writable := true, user_access := true,
          address := (tmp >>> 12) % 1099511627776 } := by
  obtain ⟨a1, a2, a3, a4, a5, a6, a7⟩ := h
  simp [constructMem, PAGESIZE, updE_lookup_ne, setE_lookup_ne, zeroRange_lookup_out,
    updE_lookup_eq, standardMem, a4, a6]

theorem cmem_pdpt5 (root pdpt tmp : Nat) (h : memParams root pdpt tmp) :
    constructMem (standardMem root pdpt) pdpt tmp pdpt 5
      = { present := true, writable := false, user_access := true,
          address := (tmp >>> 12) % 1099511627776 } := by
  obtain ⟨a1, a2, a3, a4, a5, a6, a7⟩ := h
  simp [constructMem, PAGESIZE, updE_lookup_ne, setE_lookup_ne, zeroRange_lookup_out,
    updE_lookup_eq, setE_lookup_eq, standardMem, a4, a6]

theorem cmem_tmp0 (root pdpt tmp : Nat) (h : memParams root pdpt tmp) :
    constructMem (standardMem root pdpt) pdpt tmp tmp 0
      = { present := true, writable := false, user_access := true,
          address := ((tmp + 4096) >>> 12) % 1099511627776 } := by
  obtain ⟨a1, a2, a3, a4, a5, a6, a7⟩ := h
  have f1 : tmp ≠ pdpt := by omega
  simp [constructMem, PAGESIZE, updE_lookup_ne, setE_lookup_ne, zeroRange_lookup_in,
    updE_lookup_eq, f1, zeroPTE]

theorem cmem_tmp1 (root pdpt tmp : Nat) (h : memParams root pdpt tmp) :
    constructMem (standardMem root pdpt) pdpt tmp tmp 1
      = { present := true, writable := true, user_access := true,
          address := ((tmp + 8192) >>> 12) % 1099511627776 } := by
  obtain ⟨a1, a2, a3, a4, a5, a6, a7⟩ := h
  have f1 : tmp ≠ pdpt := by omega
  simp [constructMem, PAGESIZE, updE_lookup_ne, setE_lookup_ne, zeroRange_lookup_in,
    updE_lookup_eq, f1, zeroPTE]

theorem cmem_tmpP1 (root pdpt tmp : Nat) (h : memParams root pdpt tmp) :
    constructMem (standardMem root pdpt) pdpt tmp (tmp + 4096) 0
      = { present := true, writable := true, user_access := true,
          address := ((tmp + 12288) >>> 12) % 1099511627776 } := by
  obtain ⟨a1, a2, a3, a4, a5, a6, a7⟩ := h
  have f1 : tmp + 4096 ≠ pdpt := by omega
  simp [constructMem, PAGESIZE, updE_lookup_ne, setE_lookup_ne, zeroRange_lookup_in,
    updE_lookup_eq, f1, zeroPTE]

theorem cmem_tmpP2 (root pdpt tmp : Nat) (h : memParams root pdpt tmp) :
    constructMem (standardMem root pdpt) pdpt tmp (tmp + 8192) 0
      = { present := true, writable := true, user_access := true,
          address := ((tmp + 16384) >>> 12) % 1099511627776 } := by
  obtain ⟨a1, a2, a3, a4, a5, a6, a7⟩ := h
  have f1 : tmp + 8192 ≠ pdpt := by omega
  simp [constructMem, PAGESIZE, updE_lookup_ne, setE_lookup_ne, zeroRange_lookup_in,
    updE_lookup_eq, f1, zeroPTE]

/-
Resolution of the four probe pointers through the constructed tables:
both aliased data pointers reach the fifth allocated page, both cache
pointers reach the fourth; only the writable pointer is effectively
writable, the readonly chain losing the permission at the branch level.
-/

theorem resolve_cacher1 (root pdpt tmp : Nat) (h : memParams root pdpt tmp) :
    resolveVA (constructMem (standardMem root pdpt) pdpt tmp) root cacher1VA
      = some (tmp + 12288, false) := by
  have hp := h
  obtain ⟨a1, a2, a3, a4, a5, a6, a7⟩ := hp
  have r0 : (pdpt >>> 12) <<< 12 = pdpt := page_align_rt pdpt a2
  have r1 : ((tmp >>> 12) % 1099511627776) <<< 12 = tmp :=
    page_roundtrip tmp a3 (by omega)
  have r2 : (((tmp + 4096) >>> 12) % 1099511627776) <<< 12 = tmp + 4096 :=
    page_roundtrip (tmp + 4096) (by omega) (by omega)
  have r4 : (((tmp + 12288) >>> 12) % 1099511627776) <<< 12 = tmp + 12288 :=
    page_roundtrip (tmp + 12288) (by omega) (by omega)
  simp [resolveVA, entryChain, idx_c1_3, idx_c1_2, idx_c1_1, idx_c1_0, off_c1,
    cmem_root0 root pdpt tmp h, r0, cmem_pdpt4 root pdpt tmp h, r1,
    cmem_tmp0 root pdpt tmp h, r2, cmem_tmpP1 root pdpt tmp h, r4]

theorem resolve_writable (root pdpt tmp : Nat) (h : memParams root pdpt tmp) :
    resolveVA (constructMem (standardMem root pdpt) pdpt tmp) root writableVA
      = some (tmp + 16384, true) := by
  have hp := h
  obtain ⟨a1, a2, a3, a4, a5, a6, a7⟩ := hp
  have r0 : (pdpt >>> 12) <<< 12 = pdpt := page_align_rt pdpt a2
  have r1 : ((tmp >>> 12) % 1099511627776) <<< 12 = tmp :=
    page_roundtrip tmp a3 (by omega)
  have r3 : (((tmp + 8192) >>> 12) % 1099511627776) <<< 12 = tmp + 8192 :=
    page_roundtrip (tmp + 8192) (by omega) (by omega)
  have r5 : (((tmp + 16384) >>> 12) % 1099511627776) <<< 12 = tmp + 16384 :=
    page_roundtrip (tmp + 16384) (by omega) (by omega)
  simp [resolveVA, entryChain, idx_w_3, idx_w_2, idx_w_1, idx_w_0, off_w,
    cmem_root0 root pdpt tmp h, r0, cmem_pdpt4 root pdpt tmp h, r1,
    cmem_tmp1 root pdpt tmp h, r3, cmem_tmpP2 root pdpt tmp h, r5]

theorem resolve_cacher2 (root pdpt tmp : Nat) (h : memParams root pdpt tmp) :
    resolveVA (constructMem (standardMem root pdpt) pdpt tmp) root cacher2VA
      = some (tmp + 12288, false) := by
  have hp := h
  obtain ⟨a1, a2, a3, a4, a5, a6, a7⟩ := hp
  have r0 : (pdpt >>> 12) <<< 12 = pdpt := page_align_rt pdpt a2
  have r1 : ((tmp >>> 12) % 1099511627776) <<< 12 = tmp :=
    page_roundtrip tmp a3 (by omega)
  have r2 : (((tmp + 4096) >>> 12) % 1099511627776) <<< 12 = tmp + 4096 :=
    page_roundtrip (tmp + 4096) (by omega) (by omega)
  have r4 : (((tmp + 12288) >>> 12) % 1099511627776) <<< 12 = tmp + 12288 :=
    page_roundtrip (tmp + 12288) (by omega) (by omega)
  simp [resolveVA, entryChain, idx_c2_3, idx_c2_2, idx_c2_1, idx_c2_0, off_c2,
    cmem_root0 root pdpt tmp h, r0, cmem_pdpt5 root pdpt tmp h, r1,
    cmem_tmp0 root pdpt tmp h, r2, cmem_tmpP1 root pdpt tmp h, r4]

theorem resolve_readonly (root pdpt tmp : Nat) (h : memParams root pdpt tmp) :
    resolveVA (constructMem (standardMem root pdpt) pdpt tmp) root readonlyVA
      = some (tmp + 16384, false) := by
  have hp := h
  obtain ⟨a1, a2, a3, a4, a5, a6, a7⟩ := hp
  have r0 : (pdpt >>> 12) <<< 12 = pdpt := page_align_rt pdpt a2
  have r1 : ((tmp >>> 12) % 1099511627776) <<< 12 = tmp :=
    page_roundtrip tmp a3 (by omega)
  have r3 : (((tmp + 8192) >>> 12) % 1099511627776) <<< 12 = tmp + 8192 :=
    page_roundtrip (tmp + 8192) (by omega) (by omega)
  have r5 : (((tmp + 16384) >>> 12) % 1099511627776) <<< 12 = tmp + 16384 :=
    page_roundtrip (tmp + 16384) (by omega) (by omega)
  simp [resolveVA, entryChain, idx_r_3, idx_r_2, idx_r_1, idx_r_0, off_r,
    cmem_root0 root pdpt tmp h, r0, cmem_pdpt5 root pdpt tmp h, r1,
    cmem_tmp1 root pdpt tmp h, r3, cmem_tmpP2 root pdpt tmp h, r5]

theorem findBranch_std (root pdpt : Nat) (h1 : root ≠ pdpt) (h2 : pdpt % 4096 = 0) :
    findBranch (standardMem root pdpt) root 64 = some pdpt := by
  have r0 : (pdpt >>> 12) <<< 12 = pdpt := page_align_rt pdpt h2
  have s1 : findBranch (standardMem root pdpt) root 64
      = findBranch (standardMem root pdpt) pdpt 63 := by
    have e1 : findBranch (standardMem root pdpt) root (63 + 1)
        = if ((standardMem root pdpt) root 1).present then some root
          else findBranch (standardMem root pdpt)
            (kvm_get_page_address_pae ((standardMem root pdpt) root 0)) 63 := rfl
    norm_num at e1
    rw [e1]
    simp [standardMem, h1, zeroPTE, kvm_get_page_address_pae, r0]
  have s2 : findBranch (standardMem root pdpt) pdpt 63 = some pdpt := by
    have e2 : findBranch (standardMem root pdpt) pdpt (62 + 1)
        = if ((standardMem root pdpt) pdpt 1).present then some pdpt
          else findBranch (standardMem root pdpt)
            (kvm_get_page_address_pae ((standardMem root pdpt) pdpt 0)) 62 := rfl
    norm_num at e2
    rw [e2]
    have h1s : pdpt ≠ root := fun hx => h1 hx.symm
    simp [standardMem, h1s]
  rw [s1, s2]

/-
Full evaluation of the two possible runs from a standard environment:
on a fixed implementation the fourth access faults and the handler exits
the guest after reporting TPASS; on a defective one no access faults and
control reaches the final TFAIL report.
-/

theorem runAccesses_fixed (root pdpt tmp : Nat) (h : memParams root pdpt tmp) :
    runAccesses Impl.fixed (constructMem (standardMem root pdpt) pdpt tmp) root
        readonlyVA proberAccesses
      = ([Event.memRead cacher1VA, Event.memWrite writableVA, Event.memRead cacher2VA,
          Event.memWrite readonlyVA, Event.pageFault readonlyVA,
          Event.report Status.pass "KVM enforces memory write permissions", Event.exitGuest],
         Outcome.exitedGuest) := by
  have t1 := resolve_cacher1 root pdpt tmp h
  have t2 := resolve_writable root pdpt tmp h
  have t3 := resolve_cacher2 root pdpt tmp h
  have t4 := resolve_readonly root pdpt tmp h
  simp [runAccesses, proberAccesses, accessFaults, accessEvent, errcodeOf, Access.va,
    writeFaults, t1, t2, t3, t4, handle_page_fault]

theorem runAccesses_defective (root pdpt tmp : Nat) (h : memParams root pdpt tmp) :
    runAccesses Impl.defective (constructMem (standardMem root pdpt) pdpt tmp) root
        readonlyVA proberAccesses
      = ([Event.memRead cacher1VA, Event.memWrite writableVA, Event.memRead cacher2VA,
          Event.memWrite readonlyVA,
          Event.report Status.fail "Write to read-only address did not page fault"],
         Outcome.finishedMain) := by
  have t1 := resolve_cacher1 root pdpt tmp h
  have t2 := resolve_writable root pdpt tmp h
  have t3 := resolve_cacher2 root pdpt tmp h
  have t4 := resolve_readonly root pdpt tmp h
  simp [runAccesses, proberAccesses, accessFaults, accessEvent, errcodeOf, Access.va,
    writeFaults, t1, t2, t3, t4, handle_page_fault]

theorem runMain_fixed_eq (efer root pdpt tmp : Nat) (h : goodParams efer root pdpt tmp) :
    runMain Impl.fixed (standardEnv efer root pdpt tmp)
      = (setupTrace pdpt tmp ++
          [Event.memRead cacher1VA, Event.memWrite writableVA, Event.memRead cacher2VA,
           Event.memWrite readonlyVA, Event.pageFault readonlyVA,
           Event.report Status.pass "KVM enforces memory write permissions", Event.exitGuest],
         Outcome.exitedGuest) := by
  obtain ⟨he, hm⟩ := h
  have hf := findBranch_std root pdpt hm.2.2.2.1 hm.2.1
  have hr := runAccesses_fixed root pdpt tmp hm
  simp [runMain, standardEnv, he, hf, hr]

theorem runMain_defective_eq (efer root pdpt tmp : Nat) (h : goodParams efer root pdpt tmp) :
    runMain Impl.defective (standardEnv efer root pdpt tmp)
      = (setupTrace pdpt tmp ++
          [Event.memRead cacher1VA, Event.memWrite writableVA, Event.memRead cacher2VA,
           Event.memWrite readonlyVA,
           Event.report Status.fail "Write to read-only address did not page fault"],
         Outcome.finishedMain) := by
  obtain ⟨he, hm⟩ := h
  have hf := findBranch_std root pdpt hm.2.2.2.1 hm.2.1
  have hr := runAccesses_defective root pdpt tmp hm
  simp [runMain, standardEnv, he, hf, hr]

/-- C1 (amended: the pass message the handler reports is "KVM enforces
memory write permissions"): for every run on a fixed implementation from a
standard initial state, the probing write through the readonly pointer
raises exactly one page fault, whose reported address is readonlyVA; the
handler reports TPASS with that message and exits the guest, and no fail
report is ever reached. -/
theorem C1_fixed_behaviour (efer root pdpt tmp : Nat) (h : goodParams efer root pdpt tmp) :
    ((runMain Impl.fixed (standardEnv efer root pdpt tmp)).1.filter isPageFaultEvent
        = [Event.pageFault readonlyVA]) ∧
    (∃ pre, (runMain Impl.fixed (standardEnv efer root pdpt tmp)).1
        = pre ++ [Event.memWrite readonlyVA, Event.pageFault readonlyVA,
            Event.report Status.pass "KVM enforces memory write permissions",
            Event.exitGuest]) ∧
    (runMain Impl.fixed (standardEnv efer root pdpt tmp)).2 = Outcome.exitedGuest ∧
    ∀ msg, Event.report Status.fail msg ∉ (runMain Impl.fixed (standardEnv efer root pdpt tmp)).1 := by
  rw [runMain_fixed_eq efer root pdpt tmp h]
  refine ⟨?_, ⟨setupTrace pdpt tmp ++
      [Event.memRead cacher1VA, Event.memWrite writableVA, Event.memRead cacher2VA], ?_⟩, rfl, ?_⟩
  · simp [setupTrace, constructEvents, isPageFaultEvent]
  · simp
  · intro msg
    simp [setupTrace, constructEvents]

/-- C1 witness: the standard run at concrete bootstrap addresses. -/
theorem C1_fixed_behaviour_witness :
    goodParams 1024 4096 8192 20480 ∧
    (((runMain Impl.fixed (standardEnv 1024 4096 8192 20480)).1.filter isPageFaultEvent
        = [Event.pageFault readonlyVA]) ∧
    (∃ pre, (runMain Impl.fixed (standardEnv 1024 4096 8192 20480)).1
        = pre ++ [Event.memWrite readonlyVA, Event.pageFault readonlyVA,
            Event.report Status.pass "KVM enforces memory write permissions",
            Event.exitGuest]) ∧
    (runMain Impl.fixed (standardEnv 1024 4096 8192 20480)).2 = Outcome.exitedGuest ∧
    ∀ msg, Event.report Status.fail msg ∉ (runMain Impl.fixed (standardEnv 1024 4096 8192 20480)).1) :=
  ⟨by decide, C1_fixed_behaviour 1024 4096 8192 20480 (by decide)⟩

/-- C1 counterexample to the claim as stated: the reported pass message is
not "enforces memory write permissions" (it is prefixed with "KVM"). -/
theorem C1_message_counterexample :
    Event.report Status.pass "enforces memory write permissions"
        ∉ (runMain Impl.fixed (standardEnv 1024 4096 8192 20480)).1 ∧
    Event.report Status.pass "KVM enforces memory write permissions"
        ∈ (runMain Impl.fixed (standardEnv 1024 4096 8192 20480)).1 ∧
    (runMain Impl.fixed (standardEnv 1024 4096 8192 20480)).2 = Outcome.exitedGuest := by
  decide

/-- C2 (amended: the fail message is "Write to read-only address did not
page fault", with a capital W): for every run on a defective implementation
from a standard initial state, no page fault is raised, execution reaches
the final statement of main, and TFAIL is reported with that message right
after the probing write. -/
theorem C2_defective_behaviour (efer root pdpt tmp : Nat) (h : goodParams efer root pdpt tmp) :
    ((runMain Impl.defective (standardEnv efer root pdpt tmp)).1.filter isPageFaultEvent
        = []) ∧
    (∃ pre, (runMain Impl.defective (standardEnv efer root pdpt tmp)).1
        = pre ++ [Event.memWrite readonlyVA,
            Event.report Status.fail "Write to read-only address did not page fault"]) ∧
    (runMain Impl.defective (standardEnv efer root pdpt tmp)).2 = Outcome.finishedMain ∧
    ∀ msg, Event.report Status.pass msg ∉ (runMain Impl.defective (standardEnv efer root pdpt tmp)).1 := by
  rw [runMain_defective_eq efer root pdpt tmp h]
  refine ⟨?_, ⟨setupTrace pdpt tmp ++
      [Event.memRead cacher1VA, Event.memWrite writableVA, Event.memRead cacher2VA], ?_⟩, rfl, ?_⟩
  · simp [setupTrace, constructEvents, isPageFaultEvent]
  · simp
  · intro msg
    simp [setupTrace, constructEvents]

/-- C2 witness: the standard defective run at concrete bootstrap addresses. -/
theorem C2_defective_behaviour_witness :
    goodParams 1024 4096 8192 20480 ∧
    (((runMain Impl.defective (standardEnv 1024 4096 8192 20480)).1.filter isPageFaultEvent
        = []) ∧
    (∃ pre, (runMain Impl.defective (standardEnv 1024 4096 8192 20480)).1
        = pre ++ [Event.memWrite readonlyVA,
            Event.report Status.fail "Write to read-only address did not page fault"]) ∧
    (runMain Impl.defective (standardEnv 1024 4096 8192 20480)).2 = Outcome.finishedMain ∧
    ∀ msg, Event.report Status.pass msg ∉ (runMain Impl.defective (standardEnv 1024 4096 8192 20480)).1) :=
  ⟨by decide, C2_defective_behaviour 1024 4096 8192 20480 (by decide)⟩

/-- C2 counterexample to the claim as stated: the fail message is not the
all-lowercase "write to read-only address did not page fault". -/
theorem C2_message_counterexample :
    Event.report Status.fail "write to read-only address did not page fault"
        ∉ (runMain Impl.defective (standardEnv 1024 4096 8192 20480)).1 ∧
    Event.report Status.fail "Write to read-only address did not page fault"
        ∈ (runMain Impl.defective (standardEnv 1024 4096 8192 20480)).1 ∧
    (runMain Impl.defective (standardEnv 1024 4096 8192 20480)).2 = Outcome.finishedMain := by
  decide

/-- C3 (amended: the handler decides solely by the faulting address and
ignores the error code): any fault whose address differs from the
registered read-only target is left unhandled and never reported as pass;
pass is reported exactly when the faulting address equals the target,
regardless of the error code, on which the handler result does not depend
at all. -/
theorem C3_handler_address_only (ud cr2 ec ec2 : Nat) :
    (cr2 ≠ ud → handle_page_fault ud cr2 ec = HandlerAction.unhandled ∧
      handlerReportsPass (handle_page_fault ud cr2 ec) = false) ∧
    handle_page_fault ud cr2 ec = handle_page_fault ud cr2 ec2 ∧
    (handlerReportsPass (handle_page_fault ud cr2 ec) = true → cr2 = ud) := by
  by_cases hcu : cr2 = ud <;>
    simp [handle_page_fault, handlerReportsPass, hcu]

/-- C3 witness: a fault at address 3 with target 5 is unhandled and not
reported as pass, and the handler result is independent of the error code. -/
theorem C3_handler_address_only_witness :
    handle_page_fault 5 3 0 = HandlerAction.unhandled ∧
    handlerReportsPass (handle_page_fault 5 3 0) = false ∧
    handle_page_fault 5 3 0 = handle_page_fault 5 3 7 := by
  have h := C3_handler_address_only 5 3 0 7
  exact ⟨(h.1 (by decide)).1, (h.1 (by decide)).2, h.2.1⟩

/-- C3 counterexample to the claim as stated: a fault at the expected
address whose error code denotes a non-write fault (error code 0, write
bit clear) is nevertheless handled and reported as pass — the handler
never inspects the error code. -/
theorem C3_errcode_counterexample :
    isWriteFaultErrcode 0 = false ∧
    handle_page_fault readonlyVA readonlyVA 0 ≠ HandlerAction.unhandled ∧
    handlerReportsPass (handle_page_fault readonlyVA readonlyVA 0) = true := by
  decide

/-- C6: if EFER read at entry lacks the long-mode-active bit, the payload
aborts with TBROK "Bootstrap did not enable 64bit paging" before any
page-table mutation, memory access, or pass/fail report. -/
theorem C6_lma_guard (impl : Impl) (env : Env) (h : env.efer &&& EFER_LMA = 0) :
    runMain impl env
      = ([Event.report Status.broken "Bootstrap did not enable 64bit paging"],
         Outcome.brokeSetup) ∧
    (runMain impl env).1.filter isPTMutation = [] ∧
    (runMain impl env).1.filter isAccessEvent = [] ∧
    (runMain impl env).1.filter isAllocEvent = [] ∧
    (∀ msg, Event.report Status.pass msg ∉ (runMain impl env).1) ∧
    (∀ msg, Event.report Status.fail msg ∉ (runMain impl env).1) := by
  simp [runMain, h, isPTMutation, isAccessEvent, isAllocEvent]

/-- C6 witness: a concrete environment with EFER = 0. -/
theorem C6_lma_guard_witness :
    (standardEnv 0 4096 8192 20480).efer &&& EFER_LMA = 0 ∧
    (runMain Impl.fixed (standardEnv 0 4096 8192 20480)
      = ([Event.report Status.broken "Bootstrap did not enable 64bit paging"],
         Outcome.brokeSetup) ∧
    (runMain Impl.fixed (standardEnv 0 4096 8192 20480)).1.filter isPTMutation = [] ∧
    (runMain Impl.fixed (standardEnv 0 4096 8192 20480)).1.filter isAccessEvent = [] ∧
    (runMain Impl.fixed (standardEnv 0 4096 8192 20480)).1.filter isAllocEvent = [] ∧
    (∀ msg, Event.report Status.pass msg ∉ (runMain Impl.fixed (standardEnv 0 4096 8192 20480)).1) ∧
    (∀ msg, Event.report Status.fail msg ∉ (runMain Impl.fixed (standardEnv 0 4096 8192 20480)).1)) :=
  ⟨by decide, C6_lma_guard Impl.fixed (standardEnv 0 4096 8192 20480) (by decide)⟩

/-- C4 (amended: the loop stops at the table whose second entry IS present,
and installs at its fifth and sixth entries): given the documented initial
layout, the branch-point search terminates after a single descent from the
root at the second-level table, whose second entry is present (the
identity-mapped region), and the only entries of that table the payload
writes are at indices 4 and 5 (the 0x100000000 and 0x140000000 windows),
not the third region's entry at index 2. -/
theorem C4_branch_selection (impl : Impl) (efer root pdpt tmp : Nat)
    (h : goodParams efer root pdpt tmp) :
    findBranch (standardMem root pdpt) root 64 = some pdpt ∧
    ((standardMem root pdpt) pdpt 1).present = true ∧
    ∀ i, Event.ptWrite pdpt i ∈ (runMain impl (standardEnv efer root pdpt tmp)).1 →
      i = 4 ∨ i = 5 := by
  obtain ⟨he, hm⟩ := h
  have hm2 := hm
  obtain ⟨a1, a2, a3, a4, a5, a6, a7⟩ := hm2
  have f1 : pdpt ≠ tmp := by omega
  have f2 : pdpt ≠ tmp + 4096 := by omega
  have f3 : pdpt ≠ tmp + 8192 := by omega
  have h4s : pdpt ≠ root := fun hx => a4 hx.symm
  refine ⟨findBranch_std root pdpt a4 a2, by simp [standardMem, h4s], ?_⟩
  intro i hi
  cases impl
  · rw [runMain_fixed_eq efer root pdpt tmp ⟨he, hm⟩] at hi
    simp [setupTrace, constructEvents, PAGESIZE, f1, f2, f3] at hi
    omega
  · rw [runMain_defective_eq efer root pdpt tmp ⟨he, hm⟩] at hi
    simp [setupTrace, constructEvents, PAGESIZE, f1, f2, f3] at hi
    omega

/-- C4 witness: the standard run at concrete bootstrap addresses. -/
theorem C4_branch_selection_witness :
    goodParams 1024 4096 8192 20480 ∧
    (findBranch (standardMem 4096 8192) 4096 64 = some 8192 ∧
    ((standardMem 4096 8192) 8192 1).present = true ∧
    ∀ i, Event.ptWrite 8192 i ∈ (runMain Impl.fixed (standardEnv 1024 4096 8192 20480)).1 →
      i = 4 ∨ i = 5) :=
  ⟨by decide, C4_branch_selection Impl.fixed 1024 4096 8192 20480 (by decide)⟩

/-- C4 counterexample to the claim as stated: the selected table's second
entry is present, not absent, and the payload installs its mappings at that
table's entries 4 and 5, never at the third region's entry (index 2). -/
theorem C4_branch_counterexample :
    findBranch (standardMem 4096 8192) 4096 64 = some 8192 ∧
    ((standardMem 4096 8192) 8192 1).present = true ∧
    Event.ptWrite 8192 2 ∉ (runMain Impl.fixed (standardEnv 1024 4096 8192 20480)).1 ∧
    Event.ptWrite 8192 4 ∈ (runMain Impl.fixed (standardEnv 1024 4096 8192 20480)).1 := by
  decide

/-- C5 (amended: in the chain for the readonly pointer the branch-level
entry is the read-only one while the lower intermediate and leaf entries
are writable, and the two aliased windows share the very same lower-level
tables and leaf entries, so they differ only in the branch-level writable
bit, not on any leaf): writable bits along the readonly chain are
(1, 0, 1, 1) top-down, along the writable chain (1, 1, 1, 1), the second
branch entry is the first with only its writable bit cleared, and both
chains end in the identical leaf entry. -/
theorem C5_permission_layout (root pdpt tmp : Nat) (h : memParams root pdpt tmp) :
    ((entryChain (constructMem (standardMem root pdpt) pdpt tmp) root readonlyVA).map
        PTE.writable = [true, false, true, true]) ∧
    ((entryChain (constructMem (standardMem root pdpt) pdpt tmp) root writableVA).map
        PTE.writable = [true, true, true, true]) ∧
    (constructMem (standardMem root pdpt) pdpt tmp pdpt 5
        = { constructMem (standardMem root pdpt) pdpt tmp pdpt 4 with writable := false }) ∧
    ((entryChain (constructMem (standardMem root pdpt) pdpt tmp) root readonlyVA).getLast?
        = (entryChain (constructMem (standardMem root pdpt) pdpt tmp) root writableVA).getLast?) := by
  have hp := h
  obtain ⟨a1, a2, a3, a4, a5, a6, a7⟩ := hp
  have r0 : (pdpt >>> 12) <<< 12 = pdpt := page_align_rt pdpt a2
  have r1 : ((tmp >>> 12) % 1099511627776) <<< 12 = tmp :=
    page_roundtrip tmp a3 (by omega)
  have r3 : (((tmp + 8192) >>> 12) % 1099511627776) <<< 12 = tmp + 8192 :=
    page_roundtrip (tmp + 8192) (by omega) (by omega)
  refine ⟨?_, ?_, ?_, ?_⟩
  · simp [entryChain, idx_r_3, idx_r_2, idx_r_1, idx_r_0,
      cmem_root0 root pdpt tmp h, r0, cmem_pdpt5 root pdpt tmp h, r1,
      cmem_tmp1 root pdpt tmp h, r3, cmem_tmpP2 root pdpt tmp h]
  · simp [entryChain, idx_w_3, idx_w_2, idx_w_1, idx_w_0,
      cmem_root0 root pdpt tmp h, r0, cmem_pdpt4 root pdpt tmp h, r1,
      cmem_tmp1 root pdpt tmp h, r3, cmem_tmpP2 root pdpt tmp h]
  · rw [cmem_pdpt5 root pdpt tmp h, cmem_pdpt4 root pdpt tmp h]
  · simp [entryChain, idx_r_3, idx_r_2, idx_r_1, idx_r_0,
      idx_w_3, idx_w_2, idx_w_1, idx_w_0,
      cmem_root0 root pdpt tmp h, r0, cmem_pdpt5 root pdpt tmp h,
      cmem_pdpt4 root pdpt tmp h, r1,
      cmem_tmp1 root pdpt tmp h, r3, cmem_tmpP2 root pdpt tmp h]

/-- C5 witness: the constructed tables at concrete bootstrap addresses. -/
theorem C5_permission_layout_witness :
    memParams 4096 8192 20480 ∧
    (((entryChain (constructMem (standardMem 4096 8192) 8192 20480) 4096 readonlyVA).map
        PTE.writable = [true, false, true, true]) ∧
    ((entryChain (constructMem (standardMem 4096 8192) 8192 20480) 4096 writableVA).map
        PTE.writable = [true, true, true, true]) ∧
    (constructMem (standardMem 4096 8192) 8192 20480 8192 5
        = { constructMem (standardMem 4096 8192) 8192 20480 8192 4 with writable := false }) ∧
    ((entryChain (constructMem (standardMem 4096 8192) 8192 20480) 4096 readonlyVA).getLast?
        = (entryChain (constructMem (standardMem 4096 8192) 8192 20480) 4096 writableVA).getLast?)) :=
  ⟨by decide, C5_permission_layout 4096 8192 20480 (by decide)⟩

/-- C5 counterexample to the claim as stated: in the readonly chain the
leaf entry is writable (last bit true) and an intermediate entry is the
read-only one (second bit false), and the two chains end in the identical
leaf entry, so the windows do not differ in any leaf writable bit. -/
theorem C5_leaf_counterexample :
    ((entryChain (constructMem (standardMem 4096 8192) 8192 20480) 4096 readonlyVA).map
        PTE.writable = [true, false, true, true]) ∧
    ((entryChain (constructMem (standardMem 4096 8192) 8192 20480) 4096 readonlyVA).getLast?
        = (entryChain (constructMem (standardMem 4096 8192) 8192 20480) 4096 writableVA).getLast?) := by
  decide

/-- C7: in every standard run, on either implementation, the prober's
memory accesses are exactly, in order: read cacher1, write through the
writable pointer, read cacher2, write through readonly; and the trace
splits into a prefix with no accesses followed by a suffix with no
page-table mutations, i.e. every mutation happens strictly before the
access sequence begins. -/
theorem C7_access_order (impl : Impl) (efer root pdpt tmp : Nat)
    (h : goodParams efer root pdpt tmp) :
    ((runMain impl (standardEnv efer root pdpt tmp)).1.filter isAccessEvent
      = [Event.memRead cacher1VA, Event.memWrite writableVA, Event.memRead cacher2VA,
         Event.memWrite readonlyVA]) ∧
    ∃ pre post, (runMain impl (standardEnv efer root pdpt tmp)).1 = pre ++ post ∧
      pre.filter isAccessEvent = [] ∧ post.filter isPTMutation = [] := by
  cases impl
  · rw [runMain_fixed_eq efer root pdpt tmp h]
    refine ⟨by simp [setupTrace, constructEvents, isAccessEvent],
      setupTrace pdpt tmp,
      [Event.memRead cacher1VA, Event.memWrite writableVA, Event.memRead cacher2VA,
       Event.memWrite readonlyVA, Event.pageFault readonlyVA,
       Event.report Status.pass "KVM enforces memory write permissions", Event.exitGuest],
      rfl, by simp [setupTrace, constructEvents, isAccessEvent], by simp [isPTMutation]⟩
  · rw [runMain_defective_eq efer root pdpt tmp h]
    refine ⟨by simp [setupTrace, constructEvents, isAccessEvent],
      setupTrace pdpt tmp,
      [Event.memRead cacher1VA, Event.memWrite writableVA, Event.memRead cacher2VA,
       Event.memWrite readonlyVA,
       Event.report Status.fail "Write to read-only address did not page fault"],
      rfl, by simp [setupTrace, constructEvents, isAccessEvent], by simp [isPTMutation]⟩

/-- C7 witness: the standard fixed run at concrete bootstrap addresses. -/
theorem C7_access_order_witness :
    goodParams 1024 4096 8192 20480 ∧
    (((runMain Impl.fixed (standardEnv 1024 4096 8192 20480)).1.filter isAccessEvent
      = [Event.memRead cacher1VA, Event.memWrite writableVA, Event.memRead cacher2VA,
         Event.memWrite readonlyVA]) ∧
    ∃ pre post, (runMain Impl.fixed (standardEnv 1024 4096 8192 20480)).1 = pre ++ post ∧
      pre.filter isAccessEvent = [] ∧ post.filter isPTMutation = []) :=
  ⟨by decide, C7_access_order Impl.fixed 1024 4096 8192 20480 (by decide)⟩

/-- C8: in every standard run, on either implementation, exactly one heap
allocation is requested, sized 5 pages (3 page-table pages plus 2 data
pages) and aligned to the page size, and the whole block is zeroed before
any page-table entry is installed into it and before any probing access. -/
theorem C8_alloc_and_zero (impl : Impl) (efer root pdpt tmp : Nat)
    (h : goodParams efer root pdpt tmp) :
    ((runMain impl (standardEnv efer root pdpt tmp)).1.filter isAllocEvent
      = [Event.alloc (5 * PAGESIZE) PAGESIZE]) ∧
    ∃ pre post, (runMain impl (standardEnv efer root pdpt tmp)).1
        = pre ++ Event.zeroBlock tmp (5 * PAGESIZE) :: post ∧
      pre.filter isPTWriteEvent = [] ∧ pre.filter isAccessEvent = [] := by
  cases impl
  · rw [runMain_fixed_eq efer root pdpt tmp h]
    refine ⟨by simp [setupTrace, constructEvents, isAllocEvent],
      [Event.alloc (5 * PAGESIZE) PAGESIZE],
      (constructEvents pdpt tmp).tail ++
        Event.setHandler INTR_PAGE_FAULT readonlyVA ::
        [Event.memRead cacher1VA, Event.memWrite writableVA, Event.memRead cacher2VA,
         Event.memWrite readonlyVA, Event.pageFault readonlyVA,
         Event.report Status.pass "KVM enforces memory write permissions", Event.exitGuest],
      by simp [setupTrace, constructEvents], by simp [isPTWriteEvent], by simp [isAccessEvent]⟩
  · rw [runMain_defective_eq efer root pdpt tmp h]
    refine ⟨by simp [setupTrace, constructEvents, isAllocEvent],
      [Event.alloc (5 * PAGESIZE) PAGESIZE],
      (constructEvents pdpt tmp).tail ++
        Event.setHandler INTR_PAGE_FAULT readonlyVA ::
        [Event.memRead cacher1VA, Event.memWrite writableVA, Event.memRead cacher2VA,
         Event.memWrite readonlyVA,
         Event.report Status.fail "Write to read-only address did not page fault"],
      by simp [setupTrace, constructEvents], by simp [isPTWriteEvent], by simp [isAccessEvent]⟩

/-- C8 witness: the standard fixed run at concrete bootstrap addresses. -/
theorem C8_alloc_and_zero_witness :
    goodParams 1024 4096 8192 20480 ∧
    (((runMain Impl.fixed (standardEnv 1024 4096 8192 20480)).1.filter isAllocEvent
      = [Event.alloc (5 * PAGESIZE) PAGESIZE]) ∧
    ∃ pre post, (runMain Impl.fixed (standardEnv 1024 4096 8192 20480)).1
        = pre ++ Event.zeroBlock 20480 (5 * PAGESIZE) :: post ∧
      pre.filter isPTWriteEvent = [] ∧ pre.filter isAccessEvent = []) :=
  ⟨by decide, C8_alloc_and_zero Impl.fixed 1024 4096 8192 20480 (by decide)⟩

/-- C9: the second branch-level entry is an exact copy of the first with
only the writable bit cleared, so both aliased windows share the same
lower-level tables; through the constructed tables the writable pointer
and the readonly pointer both resolve to the fifth allocated page (offsets
4 pages into the block), and cacher1 and cacher2 both resolve to the
fourth allocated page (3 pages in); only the writable pointer keeps the
effective write permission. -/
theorem C9_alias_structure (root pdpt tmp : Nat) (h : memParams root pdpt tmp) :
    findBranch (standardMem root pdpt) root 64 = some pdpt ∧
    (constructMem (standardMem root pdpt) pdpt tmp pdpt 5
        = { constructMem (standardMem root pdpt) pdpt tmp pdpt 4 with writable := false }) ∧
    resolveVA (constructMem (standardMem root pdpt) pdpt tmp) root writableVA
        = some (tmp + 4 * PAGESIZE, true) ∧
    resolveVA (constructMem (standardMem root pdpt) pdpt tmp) root readonlyVA
        = some (tmp + 4 * PAGESIZE, false) ∧
    resolveVA (constructMem (standardMem root pdpt) pdpt tmp) root cacher1VA
        = some (tmp + 3 * PAGESIZE, false) ∧
    resolveVA (constructMem (standardMem root pdpt) pdpt tmp) root cacher2VA
        = some (tmp + 3 * PAGESIZE, false) := by
  refine ⟨findBranch_std root pdpt h.2.2.2.1 h.2.1, ?_, ?_, ?_, ?_, ?_⟩
  · rw [cmem_pdpt5 root pdpt tmp h, cmem_pdpt4 root pdpt tmp h]
  · rw [resolve_writable root pdpt tmp h]
    norm_num [PAGESIZE]
  · rw [resolve_readonly root pdpt tmp h]
    norm_num [PAGESIZE]
  · rw [resolve_cacher1 root pdpt tmp h]
    norm_num [PAGESIZE]
  · rw [resolve_cacher2 root pdpt tmp h]
    norm_num [PAGESIZE]

/-- C9 witness: the constructed tables at concrete bootstrap addresses. -/
theorem C9_alias_structure_witness :
    memParams 4096 8192 20480 ∧
    (findBranch (standardMem 4096 8192) 4096 64 = some 8192 ∧
    (constructMem (standardMem 4096 8192) 8192 20480 8192 5
        = { constructMem (standardMem 4096 8192) 8192 20480 8192 4 with writable := false }) ∧
    resolveVA (constructMem (standardMem 4096 8192) 8192 20480) 4096 writableVA
        = some (20480 + 4 * PAGESIZE, true) ∧
    resolveVA (constructMem (standardMem 4096 8192) 8192 20480) 4096 readonlyVA
        = some (20480 + 4 * PAGESIZE, false) ∧
    resolveVA (constructMem (standardMem 4096 8192) 8192 20480) 4096 cacher1VA
        = some (20480 + 3 * PAGESIZE, false) ∧
    resolveVA (constructMem (standardMem 4096 8192) 8192 20480) 4096 cacher2VA
        = some (20480 + 3 * PAGESIZE, false)) :=
  ⟨by decide, C9_alias_structure 4096 8192 20480 (by decide)⟩

/-- C10: in host setup, kvm_amd is reloaded with npt=0 exactly when the npt
parameter reads as enabled, kvm_intel is reloaded with ept=0 exactly when
the ept parameter reads as enabled, an enabled tdp_mmu parameter produces
exactly the false-negative warning, and the kvm module itself is never
reloaded. -/
theorem C10_disable_tdp_policy (ps : HostParams) :
    (HostEvent.moduleReload "kvm_amd" ["npt=0"] ∈ disable_tdp ps ↔ ps.npt > 0) ∧
    (HostEvent.moduleReload "kvm_intel" ["ept=0"] ∈ disable_tdp ps ↔ ps.ept > 0) ∧
    (HostEvent.resInfo "WARNING: tdp_mmu is enabled, beware of false negatives"
        ∈ disable_tdp ps ↔ ps.tdp_mmu > 0) ∧
    ∀ args, HostEvent.moduleReload "kvm" args ∉ disable_tdp ps := by
  by_cases h1 : ps.npt > 0 <;> by_cases h2 : ps.ept > 0 <;> by_cases h3 : ps.tdp_mmu > 0 <;>
    simp [disable_tdp, h1, h2, h3]

/-- C10 witness: npt and tdp_mmu enabled, ept absent. -/
theorem C10_disable_tdp_policy_witness :
    (HostEvent.moduleReload "kvm_amd" ["npt=0"] ∈ disable_tdp { npt := 1, ept := 0, tdp_mmu := 1 }
      ↔ (1 : Int) > 0) ∧
    (HostEvent.moduleReload "kvm_intel" ["ept=0"] ∈ disable_tdp { npt := 1, ept := 0, tdp_mmu := 1 }
      ↔ (0 : Int) > 0) ∧
    (HostEvent.resInfo "WARNING: tdp_mmu is enabled, beware of false negatives"
        ∈ disable_tdp { npt := 1, ept := 0, tdp_mmu := 1 } ↔ (1 : Int) > 0) ∧
    ∀ args, HostEvent.moduleReload "kvm" args ∉ disable_tdp { npt := 1, ept := 0, tdp_mmu := 1 } :=
  C10_disable_tdp_policy { npt := 1, ept := 0, tdp_mmu := 1 }
